import Mathlib

/-!
Shallow embedding of `src/gong-client.ts` (gong-mcp-server): a typed client
for the Gong REST API.  Each TypeScript method is modelled by a pure
request-builder (what goes on the wire) and a response-normalizer (how the
upstream JSON envelope is reshaped), with JavaScript runtime behaviour made
explicit: absent JSON fields are `Option.none`, member access on an absent
object is a thrown `TypeError` (modelled with `Except`), `x || []` is
`Option.getD`, `xs[0]` on a possibly-empty array is `List.head?`, and
`JSON.stringify` drops object entries whose value is `undefined`.
-/

/-- JavaScript runtime values, as far as request bodies need them.
`undefined` mirrors the JavaScript value of that name; `nullv` is JSON `null`. -/
inductive JsVal where
  | undefined : JsVal
  | nullv : JsVal
  | boolean : Bool → JsVal
  | num : Int → JsVal
  | str : String → JsVal
  | arr : List JsVal → JsVal
  | obj : List (String × JsVal) → JsVal
deriving Repr, BEq

/-- Whether a JavaScript value is `undefined`. -/
def JsVal.isUndefined : JsVal → Bool
  | .undefined => true
  | _ => false

mutual
/-- `JSON.stringify` semantics on the value level: object entries whose
value is `undefined` are dropped; `undefined` array elements become `null`. -/
def jsonSerialize : JsVal → JsVal
  | .undefined => .undefined
  | .nullv => .nullv
  | .boolean b => .boolean b
  | .num n => .num n
  | .str s => .str s
  | .arr xs => .arr (serializeArr xs)
  | .obj fs => .obj (serializeFields fs)

/-- Array elements under `JSON.stringify`: `undefined` becomes `null`. -/
def serializeArr : List JsVal → List JsVal
  | [] => []
  | x :: xs => (if x.isUndefined then .nullv else jsonSerialize x) :: serializeArr xs

/-- Object entries under `JSON.stringify`: `undefined`-valued keys vanish. -/
def serializeFields : List (String × JsVal) → List (String × JsVal)
  | [] => []
  | f :: fs =>
    if (f.2).isUndefined then serializeFields fs
    else (f.1, jsonSerialize f.2) :: serializeFields fs
end

/-- The keys of a JSON object value (empty for non-objects). -/
def objKeys : JsVal → List String
  | .obj fs => fs.map Prod.fst
  | _ => []

/-- Field lookup in a JSON object value; `undefined` when missing. -/
def getField (k : String) : JsVal → JsVal
  | .obj fs =>
    match fs.find? (fun f => f.1 == k) with
    | some f => f.2
    | none => .undefined
  | _ => .undefined

/-- A possibly-absent string parameter as a JavaScript value
(`params.x` where `x?: string`). -/
def jsOfOptStr : Option String → JsVal
  | none => .undefined
  | some s => .str s

/-- JavaScript truthiness of a possibly-absent string:
`undefined` and `""` are falsy. -/
def truthy : Option String → Bool
  | none => false
  | some s => s != ""

/-- UTF-8 bytes of one character (what `Buffer.from(string)` produces). -/
def utf8BytesChar (c : Char) : List Nat :=
  let n := c.toNat
  if n < 128 then [n]
  else if n < 2048 then [192 + n / 64, 128 + n % 64]
  else if n < 65536 then [224 + n / 4096, 128 + (n / 64) % 64, 128 + n % 64]
  else [240 + n / 262144, 128 + (n / 4096) % 64, 128 + (n / 64) % 64, 128 + n % 64]

/-- UTF-8 bytes of a string. -/
def utf8Bytes (s : String) : List Nat :=
  (s.data.map utf8BytesChar).flatten

/-- The base64 alphabet. -/
def base64Alphabet : List Char :=
  "ABCDEFGHIJKLMNOPQRSTUVWXYZabcdefghijklmnopqrstuvwxyz0123456789+/".data

/-- The base64 digit for a 6-bit value. -/
def base64Digit (n : Nat) : Char := base64Alphabet.getD n 'A'

/-- Standard base64 encoding of a byte sequence
(`Buffer.prototype.toString("base64")`). -/
def base64Encode : List Nat → String
  | [] => ""
  | [b0] =>
    String.mk [base64Digit (b0 / 4), base64Digit (b0 % 4 * 16)] ++ "=="
  | [b0, b1] =>
    String.mk [base64Digit (b0 / 4), base64Digit (b0 % 4 * 16 + b1 / 16),
      base64Digit (b1 % 16 * 4)] ++ "="
  | b0 :: b1 :: b2 :: rest =>
    String.mk [base64Digit (b0 / 4), base64Digit (b0 % 4 * 16 + b1 / 16),
      base64Digit (b1 % 16 * 4 + b2 / 64), base64Digit (b2 % 64)] ++
      base64Encode rest

/-- A hexadecimal digit, upper case. -/
def hexDigit (n : Nat) : Char := "0123456789ABCDEF".data.getD n '0'

/-- Percent-encoding of one byte. -/
def percentByte (b : Nat) : String :=
  String.mk ['%', hexDigit (b / 16), hexDigit (b % 16)]

/-- `application/x-www-form-urlencoded` encoding of a string, as
`URLSearchParams` performs it. -/
def urlEncode (s : String) : String :=
  String.join (s.data.map (fun c =>
    if c.isAlphanum || c == '*' || c == '-' || c == '.' || c == '_' then
      String.mk [c]
    else if c == ' ' then "+"
    else String.join ((utf8BytesChar c).map percentByte)))

/-- `URLSearchParams.prototype.toString`. -/
def queryToString (ps : List (String × String)) : String :=
  String.intercalate "&" (ps.map (fun p => urlEncode p.1 ++ "=" ++ urlEncode p.2))

/-- `if (v) queryParams.append(name, v)`: conditional append to a
`URLSearchParams`, modelled as an ordered association list. -/
def appendIf (q : List (String × String)) (name : String) (v : Option String) :
    List (String × String) :=
  if truthy v then q ++ [(name, v.getD "")] else q

/-! ## Data model (the TypeScript interfaces) -/

/-- `{ name: string; value: string }` CRM field. -/
structure CrmField where
  name : String
  value : String
deriving Repr, DecidableEq

/-- `{ objectType; objectId; fields }` CRM object reference. -/
structure CrmObjectRef where
  objectType : String
  objectId : String
  fields : List CrmField
deriving Repr, DecidableEq

/-- `GongPartyContext` / `GongCallContext` (identical shapes in the source). -/
structure GongContextEntry where
  system : String
  objects : List CrmObjectRef
deriving Repr, DecidableEq

/-- The closed three-way affiliation tag `"Internal" | "External" | "Unknown"`. -/
inductive Affiliation where
  | internal | external | unknown
deriving Repr, DecidableEq

/-- `GongParty`. -/
structure GongParty where
  id : String
  emailAddress : String
  name : String
  title : Option String
  userId : Option String
  speakerId : Option String
  context : Option (List GongContextEntry)
  affiliation : Affiliation
deriving Repr, DecidableEq

/-- A tracker occurrence `{ startTime: number }`. -/
structure TrackerOccurrence where
  startTime : Nat
deriving Repr, DecidableEq

/-- A content tracker. -/
structure ContentTracker where
  id : String
  name : String
  count : Nat
  occurrences : List TrackerOccurrence
deriving Repr, DecidableEq

/-- A content topic `{ name; duration }`. -/
structure ContentTopic where
  name : String
  duration : Nat
deriving Repr, DecidableEq

/-- A point of interest `{ type; startTime }`. -/
structure PointOfInterest where
  type : String
  startTime : Nat
deriving Repr, DecidableEq

/-- `GongCallContent`. -/
structure GongCallContent where
  trackers : Option (List ContentTracker)
  topics : Option (List ContentTopic)
  pointsOfInterest : Option (List PointOfInterest)
deriving Repr, DecidableEq

/-- `GongCall`. -/
structure GongCall where
  id : String
  title : String
  scheduled : String
  started : String
  duration : Nat
  primaryUserId : String
  direction : String
  scope : String
  media : String
  language : String
  url : String
  parties : List GongParty
  content : Option GongCallContent
  context : Option (List GongContextEntry)
deriving Repr, DecidableEq

/-- A timed sentence `{ start; end; text }` of a transcript turn. -/
structure TranscriptSentence where
  start : Nat
  «end» : Nat
  text : String
deriving Repr, DecidableEq

/-- `GongTranscriptEntry`: one speaker turn. -/
structure GongTranscriptEntry where
  speakerId : String
  topic : Option String
  sentences : List TranscriptSentence
deriving Repr, DecidableEq

/-- `GongTranscript`. -/
structure GongTranscript where
  callId : String
  transcript : List GongTranscriptEntry
deriving Repr, DecidableEq

/-- `GongUser.settings`. -/
structure UserSettings where
  webConferencesRecorded : Bool
  preventWebConferenceRecording : Bool
deriving Repr, DecidableEq

/-- `GongUser`. -/
structure GongUser where
  id : String
  emailAddress : String
  firstName : String
  lastName : String
  title : Option String
  phoneNumber : Option String
  extension : Option String
  personalMeetingUrls : Option (List String)
  settings : UserSettings
  managerId : Option String
  meetingConsentPageUrl : Option String
  active : Bool
  created : String
deriving Repr, DecidableEq

/-- `GongDeal.account`. -/
structure DealAccount where
  id : String
  name : String
deriving Repr, DecidableEq

/-- `GongDeal`. -/
structure GongDeal where
  id : String
  url : Option String
  title : Option String
  account : Option DealAccount
  closeDate : Option String
  amount : Option Int
  stage : Option String
  status : Option String
deriving Repr, DecidableEq

/-- The closed email direction tag `"Inbound" | "Outbound"`. -/
inductive EmailDirection where
  | inbound | outbound
deriving Repr, DecidableEq

/-- `GongEmail`. -/
structure GongEmail where
  id : String
  subject : Option String
  fromEmailAddress : String
  toEmailAddresses : List String
  ccEmailAddresses : Option (List String)
  sentTime : String
  direction : EmailDirection
  body : Option String
deriving Repr, DecidableEq

/-- `PaginatedResponse<T>`: the normalized envelope every list-style method
produces.  `records` is declared `T[]` in TypeScript but the runtime value
may be `undefined` (when the source omits the empty-list default), so it is
modelled as an `Option`. -/
structure PaginatedResponse (T : Type) where
  records : Option (List T)
  cursor : Option String
  totalRecords : Option Nat
deriving Repr, DecidableEq

/-- A library folder `{ id; name }`. -/
structure LibraryFolder where
  id : String
  name : String
deriving Repr, DecidableEq

/-- A CRM-call link record `{ objectId; calls: { callId }[] }`. -/
structure CallIdRef where
  callId : String
deriving Repr, DecidableEq

/-- One `crmCallsLinks` entry. -/
structure CrmCallsLink where
  objectId : String
  calls : List CallIdRef
deriving Repr, DecidableEq

/-! ## The client and its authenticated request primitive -/

/-- `GongConfig`: the two opaque secret strings. -/
structure GongConfig where
  accessKey : String
  accessKeySecret : String
deriving Repr, DecidableEq

/-- `const GONG_API_BASE = "https://api.gong.io/v2"`. -/
def GONG_API_BASE : String := "https://api.gong.io/v2"

/-- The client state: the single private field `authHeader`. -/
structure GongClient where
  authHeader : String
deriving Repr, DecidableEq

/-- The constructor: `Buffer.from(accessKey + ":" + secret).toString("base64")`
wrapped as an HTTP Basic credential, computed once and stored. -/
def GongClient.create (config : GongConfig) : GongClient :=
  { authHeader :=
      "Basic " ++ base64Encode (utf8Bytes (config.accessKey ++ ":" ++ config.accessKeySecret)) }

/-- The headers every `fetch` issued by `request` carries. -/
def requestHeaders (client : GongClient) : List (String × String) :=
  [("Authorization", client.authHeader), ("Content-Type", "application/json")]

/-- An outbound request as a domain method hands it to the `request`
primitive: endpoint path (query string included), HTTP method, optional
structured body (serialized by `JSON.stringify` at dispatch time). -/
structure GongRequest where
  endpoint : String
  method : String
  body : Option JsVal
deriving Repr, BEq

/-- One transport-level HTTP response: status code and raw body text. -/
structure HttpResponse where
  status : Nat
  bodyText : String
deriving Repr, DecidableEq

/-- `Response.ok`: status in the 2xx range. -/
def responseOk (status : Nat) : Bool :=
  decide (200 ≤ status) && decide (status ≤ 299)

/-- The error message thrown on a non-success status:
`Gong API error (status): errorText`. -/
def gongErrorMessage (status : Nat) (errorText : String) : String :=
  "Gong API error (" ++ toString status ++ "): " ++ errorText

/-- The body of `request`: one `fetch` against a transport modelled as a
stream of pending responses.  Exactly one response is consumed per
invocation — there is no retry loop in the source — and a non-success
status throws, surfacing the status code and the raw body text. -/
def request (transport : List HttpResponse) :
    (Except String String) × List HttpResponse :=
  match transport with
  | [] => (.error "fetch failed", [])
  | r :: rest =>
    (if responseOk r.status then .ok r.bodyText
     else .error (gongErrorMessage r.status r.bodyText), rest)

/-- What one `fetch` call puts on the wire: URL, HTTP method, headers, and
the `JSON.stringify`-serialized body. -/
structure OutboundExchange where
  url : String
  method : String
  headers : List (String × String)
  serializedBody : Option JsVal
deriving Repr, BEq

/-- The observable effect of one invocation of the `request` primitive. -/
structure ExchangeResult where
  sent : OutboundExchange
  outcome : Except String String
  remaining : List HttpResponse
  clientAfter : GongClient

/-- A full client-level exchange: what `request` sends (URL from
`GONG_API_BASE ++ endpoint`, headers from the stored credential, body
serialized) and what it returns, threading the client state, which the
source never mutates after construction. -/
def clientRequest (c : GongClient) (req : GongRequest)
    (transport : List HttpResponse) : ExchangeResult :=
  { sent :=
      { url := GONG_API_BASE ++ req.endpoint, method := req.method,
        headers := requestHeaders c,
        serializedBody := req.body.map jsonSerialize },
    outcome := (request transport).1,
    remaining := (request transport).2,
    clientAfter := c }

/-! ## Envelope shapes (the per-endpoint response types)

TypeScript declares these fields non-optional, but decoding is trust-based
(no runtime validation), so every envelope field an upstream server might
omit is modelled as an `Option`. -/

/-- The nested `records` pagination-metadata object. -/
structure RecordsMeta where
  currentPageSize : Option Nat
  currentPageNumber : Option Nat
  cursor : Option String
  totalRecords : Option Nat
deriving Repr, DecidableEq

/-- The `/calls` response envelope. -/
structure CallsEnvelope where
  requestId : String
  records : Option RecordsMeta
  calls : Option (List GongCall)
deriving Repr, DecidableEq

/-- The `/users` response envelope. -/
structure UsersEnvelope where
  requestId : String
  records : Option RecordsMeta
  users : Option (List GongUser)
deriving Repr, DecidableEq

/-- The `/crm/deals` response envelope. -/
structure DealsEnvelope where
  requestId : String
  records : Option RecordsMeta
  deals : Option (List GongDeal)
deriving Repr, DecidableEq

/-- The `/emails` response envelope. -/
structure EmailsEnvelope where
  requestId : String
  records : Option RecordsMeta
  emailActivities : Option (List GongEmail)
deriving Repr, DecidableEq

/-- The `/calls/transcript` response envelope. -/
structure TranscriptEnvelope where
  requestId : String
  callTranscripts : List GongTranscript
deriving Repr, DecidableEq

/-- The `/calls/extensive` response envelope. -/
structure ExtensiveCallsEnvelope where
  requestId : String
  records : Option RecordsMeta
  calls : Option (List GongCall)
deriving Repr, DecidableEq

/-- The `/users/extensive` response envelope. -/
structure UsersExtensiveEnvelope where
  requestId : String
  users : Option (List GongUser)
deriving Repr, DecidableEq

/-- The `/crm/object/calls` response envelope. -/
structure CrmCallsEnvelope where
  requestId : String
  crmCallsLinks : Option (List CrmCallsLink)
deriving Repr, DecidableEq

/-- The `/stats/activity/aggregate` response envelope; each stats record is
an opaque `Record<string, unknown>`. -/
structure UserStatsEnvelope where
  requestId : String
  usersStats : Option (List (List (String × JsVal)))
deriving Repr, BEq

/-- The `/library/folders` response envelope. -/
structure LibraryFoldersEnvelope where
  requestId : String
  libraryFolders : Option (List LibraryFolder)
deriving Repr, DecidableEq

/-! ## listCalls -/

/-- The parameter object of `listCalls`. -/
structure ListCallsParams where
  fromDateTime : Option String := none
  toDateTime : Option String := none
  workspaceId : Option String := none
  cursor : Option String := none
deriving Repr, DecidableEq

/-- The `URLSearchParams` built by `listCalls`, in source order. -/
def listCallsQuery (p : ListCallsParams) : List (String × String) :=
  appendIf (appendIf (appendIf (appendIf [] "fromDateTime" p.fromDateTime)
    "toDateTime" p.toDateTime) "workspaceId" p.workspaceId) "cursor" p.cursor

/-- The endpoint string `listCalls` passes to `request`:
`/calls` plus the query string when non-empty. -/
def listCallsEndpoint (p : ListCallsParams) : String :=
  "/calls" ++
    (if queryToString (listCallsQuery p) == "" then ""
     else "?" ++ queryToString (listCallsQuery p))

/-- The outbound request of `listCalls`: GET, no body. -/
def listCallsRequest (p : ListCallsParams) : GongRequest :=
  { endpoint := listCallsEndpoint p, method := "GET", body := none }

/-- The return expression of `listCalls`:
`records: response.calls` (no defaulting), `cursor: response.records.cursor`
and `totalRecords: response.records.totalRecords` (plain member access, so an
absent `records` object throws a `TypeError`). -/
def listCallsNormalize (env : CallsEnvelope) :
    Except String (PaginatedResponse GongCall) :=
  match env.records with
  | none => .error "TypeError: Cannot read properties of undefined"
  | some meta =>
    .ok { records := env.calls, cursor := meta.cursor,
          totalRecords := meta.totalRecords }

/-! ## searchCalls -/

/-- The parameter object of `searchCalls`. -/
structure SearchCallsParams where
  searchTerm : Option String := none
  fromDateTime : Option String := none
  toDateTime : Option String := none
  primaryUserIds : Option (List String) := none
  cursor : Option String := none
deriving Repr, DecidableEq

/-- `searchCalls` delegates to `listCalls` with only the date-range and
cursor fields; `searchTerm` and `primaryUserIds` are dropped. -/
def searchCallsRequest (p : SearchCallsParams) : GongRequest :=
  listCallsRequest
    { fromDateTime := p.fromDateTime, toDateTime := p.toDateTime,
      cursor := p.cursor }

/-- `searchCalls` returns the result of the delegated `listCalls` call. -/
def searchCallsNormalize (env : CallsEnvelope) :
    Except String (PaginatedResponse GongCall) :=
  listCallsNormalize env

/-! ## listUsers -/

/-- The `URLSearchParams` built by `listUsers` from its single `cursor`
parameter. -/
def listUsersQuery (cursor : Option String) : List (String × String) :=
  appendIf [] "cursor" cursor

/-- The endpoint string `listUsers` passes to `request`. -/
def listUsersEndpoint (cursor : Option String) : String :=
  "/users" ++
    (if queryToString (listUsersQuery cursor) == "" then ""
     else "?" ++ queryToString (listUsersQuery cursor))

/-- The outbound request of `listUsers`: GET, no body. -/
def listUsersRequest (cursor : Option String) : GongRequest :=
  { endpoint := listUsersEndpoint cursor, method := "GET", body := none }

/-- The return expression of `listUsers`: `records: response.users`
(no defaulting), metadata via plain member access on `response.records`. -/
def listUsersNormalize (env : UsersEnvelope) :
    Except String (PaginatedResponse GongUser) :=
  match env.records with
  | none => .error "TypeError: Cannot read properties of undefined"
  | some meta =>
    .ok { records := env.users, cursor := meta.cursor,
          totalRecords := meta.totalRecords }

/-! ## listDeals -/

/-- The parameter object of `listDeals` (and of `listEmails`, which has the
same shape). -/
structure DateCursorParams where
  fromDateTime : Option String := none
  toDateTime : Option String := none
  cursor : Option String := none
deriving Repr, DecidableEq

/-- The POST body of `listDeals`:
`{ filter: { fromDateTime, toDateTime }, cursor }`, with absent parameters
as `undefined` (dropped later by `JSON.stringify`). -/
def listDealsBody (p : DateCursorParams) : JsVal :=
  .obj [("filter", .obj [("fromDateTime", jsOfOptStr p.fromDateTime),
                         ("toDateTime", jsOfOptStr p.toDateTime)]),
        ("cursor", jsOfOptStr p.cursor)]

/-- The outbound request of `listDeals`: POST `/crm/deals`. -/
def listDealsRequest (p : DateCursorParams) : GongRequest :=
  { endpoint := "/crm/deals", method := "POST", body := some (listDealsBody p) }

/-- The return expression of `listDeals`: `records: response.deals || []`
(empty-list default) and optional chaining `response.records?.cursor`,
`response.records?.totalRecords` (no throw on absent metadata). -/
def listDealsNormalize (env : DealsEnvelope) : PaginatedResponse GongDeal :=
  { records := some (env.deals.getD []),
    cursor := env.records.bind (fun m => m.cursor),
    totalRecords := env.records.bind (fun m => m.totalRecords) }

/-! ## listEmails -/

/-- The POST body of `listEmails`: same shape as `listDeals`. -/
def listEmailsBody (p : DateCursorParams) : JsVal :=
  .obj [("filter", .obj [("fromDateTime", jsOfOptStr p.fromDateTime),
                         ("toDateTime", jsOfOptStr p.toDateTime)]),
        ("cursor", jsOfOptStr p.cursor)]

/-- The outbound request of `listEmails`: POST `/emails`. -/
def listEmailsRequest (p : DateCursorParams) : GongRequest :=
  { endpoint := "/emails", method := "POST", body := some (listEmailsBody p) }

/-- The return expression of `listEmails`:
`records: response.emailActivities || []` and optional chaining on
`response.records`. -/
def listEmailsNormalize (env : EmailsEnvelope) : PaginatedResponse GongEmail :=
  { records := some (env.emailActivities.getD []),
    cursor := env.records.bind (fun m => m.cursor),
    totalRecords := env.records.bind (fun m => m.totalRecords) }

/-! ## getTranscript -/

/-- The outbound request of `getTranscript`: POST `/calls/transcript` with
`{ filter: { callIds: [callId] } }`. -/
def getTranscriptRequest (callId : String) : GongRequest :=
  { endpoint := "/calls/transcript", method := "POST",
    body := some (.obj [("filter", .obj [("callIds", .arr [.str callId])])]) }

/-- The return expression of `getTranscript`:
`response.callTranscripts[0]` — JavaScript indexing, which yields
`undefined` (not a throw) on an empty array. -/
def getTranscriptNormalize (env : TranscriptEnvelope) : Option GongTranscript :=
  env.callTranscripts.head?

/-! ## Non-paginated unwrap methods -/

/-- The return expression of `getCallsExtensive`: `response.calls`, no
default. -/
def getCallsExtensiveNormalize (env : ExtensiveCallsEnvelope) :
    Option (List GongCall) :=
  env.calls

/-- The return expression of `getUsers`: `response.users`, no default. -/
def getUsersNormalize (env : UsersExtensiveEnvelope) : Option (List GongUser) :=
  env.users

/-- The return expression of `getCallsByCrmObject`: `response.crmCallsLinks`,
no default. -/
def getCallsByCrmObjectNormalize (env : CrmCallsEnvelope) :
    Option (List CrmCallsLink) :=
  env.crmCallsLinks

/-- The return expression of `getUserStats`: `response.usersStats`, no
default. -/
def getUserStatsNormalize (env : UserStatsEnvelope) :
    Option (List (List (String × JsVal))) :=
  env.usersStats

/-- The return expression of `listLibraryFolders`: `response.libraryFolders`,
no default. -/
def listLibraryFoldersNormalize (env : LibraryFoldersEnvelope) :
    Option (List LibraryFolder) :=
  env.libraryFolders


/-! ## Shared concrete envelopes and metadata for counterexamples and
witnesses -/

/-- A pagination-metadata object with every field absent. -/
def emptyMeta : RecordsMeta :=
  { currentPageSize := none, currentPageNumber := none, cursor := none,
    totalRecords := none }

/-- A fully populated pagination-metadata object. -/
def populatedMeta : RecordsMeta :=
  { currentPageSize := some 1, currentPageNumber := some 1,
    cursor := some "NEXT", totalRecords := some 42 }

/-- A `/calls` envelope whose `calls` array field is omitted. -/
def callsEnvNoArray : CallsEnvelope :=
  { requestId := "r", records := some emptyMeta, calls := none }

/-- A `/calls` envelope whose nested `records` metadata object is omitted. -/
def callsEnvNoMeta : CallsEnvelope :=
  { requestId := "r", records := none, calls := some [] }

/-- A `/users` envelope whose nested `records` metadata object is omitted. -/
def usersEnvNoMeta : UsersEnvelope :=
  { requestId := "r", records := none, users := some [] }

/-- A `/crm/deals` envelope with both optional envelope fields omitted. -/
def dealsEnvBare : DealsEnvelope :=
  { requestId := "r", records := none, deals := none }

/-- An `/emails` envelope with both optional envelope fields omitted. -/
def emailsEnvBare : EmailsEnvelope :=
  { requestId := "r", records := none, emailActivities := none }

/-- A `/calls` envelope with populated metadata and an empty page. -/
def callsEnvFull : CallsEnvelope :=
  { requestId := "r", records := some populatedMeta, calls := some [] }

/-- A `/users` envelope with populated metadata and an empty page. -/
def usersEnvFull : UsersEnvelope :=
  { requestId := "r", records := some populatedMeta, users := some [] }

/-- A `/crm/deals` envelope with populated metadata and an empty page. -/
def dealsEnvFull : DealsEnvelope :=
  { requestId := "r", records := some populatedMeta, deals := some [] }

/-- An `/emails` envelope with populated metadata and an empty page. -/
def emailsEnvFull : EmailsEnvelope :=
  { requestId := "r", records := some populatedMeta, emailActivities := some [] }

/-- `listCalls` parameters with every optional filter left unset. -/
def defaultCallsParams : ListCallsParams := {}

/-- `listDeals`/`listEmails` parameters with every optional filter left
unset. -/
def defaultDateCursorParams : DateCursorParams := {}

/-! ## Helper lemmas -/

/-- `appendIf` with an absent value is the identity. -/
theorem appendIf_absent (q : List (String × String)) (name : String) :
    appendIf q name none = q := by
  simp [appendIf, truthy]

/-- A key of `listCallsQuery` is one of the four parameter names, and its
parameter is truthy. -/
theorem mem_keys_listCallsQuery (p : ListCallsParams) (k : String)
    (h : k ∈ (listCallsQuery p).map Prod.fst) :
    (k = "fromDateTime" ∧ truthy p.fromDateTime = true) ∨
    (k = "toDateTime" ∧ truthy p.toDateTime = true) ∨
    (k = "workspaceId" ∧ truthy p.workspaceId = true) ∨
    (k = "cursor" ∧ truthy p.cursor = true) := by
  unfold listCallsQuery appendIf at h
  split at h <;> split at h <;> split at h <;> split at h <;> simp_all

/-! ## C1 -/

/-- Claim C1 counterexample: `listCalls` does **not** default a missing
`calls` array — against an envelope with pagination metadata present but the
`calls` field omitted, the normalized `records` is absent (`undefined`), not
an empty sequence. -/
theorem claim_C1_counterexample :
    (listCallsNormalize callsEnvNoArray).toOption.map (fun r => r.records) =
      some none ∧
    some (none : Option (List GongCall)) ≠ some (some []) := by
  constructor
  · rfl
  · simp

/-- Claim C1 (amended): `listDeals` and `listEmails` default a missing
resource array to the empty sequence, while `listCalls` and `listUsers`
pass the (possibly absent) upstream array field through unchanged. -/
theorem claim_C1_amended :
    (∀ env : DealsEnvelope, env.deals = none →
      (listDealsNormalize env).records = some []) ∧
    (∀ env : EmailsEnvelope, env.emailActivities = none →
      (listEmailsNormalize env).records = some []) ∧
    (∀ (env : CallsEnvelope) (r : PaginatedResponse GongCall),
      listCallsNormalize env = .ok r → r.records = env.calls) ∧
    (∀ (env : UsersEnvelope) (r : PaginatedResponse GongUser),
      listUsersNormalize env = .ok r → r.records = env.users) := by
  refine ⟨?_, ?_, ?_, ?_⟩
  · intro env h; simp [listDealsNormalize, h]
  · intro env h; simp [listEmailsNormalize, h]
  · intro env r h
    unfold listCallsNormalize at h
    split at h
    · simp at h
    · cases h; rfl
  · intro env r h
    unfold listUsersNormalize at h
    split at h
    · simp at h
    · cases h; rfl

/-- Witness for the amended C1 at concrete envelopes. -/
theorem claim_C1_amended_witness :
    (listDealsNormalize dealsEnvBare).records = some [] ∧
    (listEmailsNormalize emailsEnvBare).records = some [] ∧
    (PaginatedResponse.mk (some []) populatedMeta.cursor
        populatedMeta.totalRecords : PaginatedResponse GongCall).records =
      callsEnvFull.calls ∧
    (PaginatedResponse.mk (some []) populatedMeta.cursor
        populatedMeta.totalRecords : PaginatedResponse GongUser).records =
      usersEnvFull.users :=
  ⟨claim_C1_amended.1 dealsEnvBare rfl,
   claim_C1_amended.2.1 emailsEnvBare rfl,
   claim_C1_amended.2.2.1 callsEnvFull
     (PaginatedResponse.mk (some []) populatedMeta.cursor
       populatedMeta.totalRecords) rfl,
   claim_C1_amended.2.2.2 usersEnvFull
     (PaginatedResponse.mk (some []) populatedMeta.cursor
       populatedMeta.totalRecords) rfl⟩

/-! ## C2 -/

/-- Claim C2 counterexample: when the nested `records` metadata object is
absent, `listCalls` **throws** (`response.records.cursor` is a `TypeError`
on `undefined`), rather than returning a response with both pagination
fields defaulted to undefined. -/
theorem claim_C2_counterexample :
    (listCallsNormalize callsEnvNoMeta).isOk = false ∧
    listCallsNormalize callsEnvNoMeta =
      .error "TypeError: Cannot read properties of undefined" :=
  ⟨rfl, rfl⟩

/-- Claim C2 (amended): `listDeals` and `listEmails` tolerate an absent
`records` metadata object, defaulting `cursor` and `totalRecords` to
undefined; `listCalls` and `listUsers` instead fail with a `TypeError` when
it is absent. -/
theorem claim_C2_amended :
    (∀ env : DealsEnvelope, env.records = none →
      (listDealsNormalize env).cursor = none ∧
      (listDealsNormalize env).totalRecords = none) ∧
    (∀ env : EmailsEnvelope, env.records = none →
      (listEmailsNormalize env).cursor = none ∧
      (listEmailsNormalize env).totalRecords = none) ∧
    (∀ env : CallsEnvelope, env.records = none →
      (listCallsNormalize env).isOk = false) ∧
    (∀ env : UsersEnvelope, env.records = none →
      (listUsersNormalize env).isOk = false) := by
  refine ⟨?_, ?_, ?_, ?_⟩
  · intro env h; simp [listDealsNormalize, h]
  · intro env h; simp [listEmailsNormalize, h]
  · intro env h; simp [listCallsNormalize, h, Except.isOk, Except.toBool]
  · intro env h; simp [listUsersNormalize, h, Except.isOk, Except.toBool]

/-- Witness for the amended C2 at concrete envelopes. -/
theorem claim_C2_amended_witness :
    ((listDealsNormalize dealsEnvBare).cursor = none ∧
      (listDealsNormalize dealsEnvBare).totalRecords = none) ∧
    ((listEmailsNormalize emailsEnvBare).cursor = none ∧
      (listEmailsNormalize emailsEnvBare).totalRecords = none) ∧
    (listCallsNormalize callsEnvNoMeta).isOk = false ∧
    (listUsersNormalize usersEnvNoMeta).isOk = false :=
  ⟨claim_C2_amended.1 dealsEnvBare rfl,
   claim_C2_amended.2.1 emailsEnvBare rfl,
   claim_C2_amended.2.2.1 callsEnvNoMeta rfl,
   claim_C2_amended.2.2.2 usersEnvNoMeta rfl⟩

/-! ## C3 -/

/-- Claim C3: for every listing method, when the nested `records` metadata
object is present, the normalized `cursor` and `totalRecords` equal the
envelope's nested values exactly. -/
theorem claim_C3 :
    (∀ (env : CallsEnvelope) (meta : RecordsMeta), env.records = some meta →
      listCallsNormalize env =
        .ok { records := env.calls, cursor := meta.cursor,
              totalRecords := meta.totalRecords }) ∧
    (∀ (env : UsersEnvelope) (meta : RecordsMeta), env.records = some meta →
      listUsersNormalize env =
        .ok { records := env.users, cursor := meta.cursor,
              totalRecords := meta.totalRecords }) ∧
    (∀ (env : DealsEnvelope) (meta : RecordsMeta), env.records = some meta →
      (listDealsNormalize env).cursor = meta.cursor ∧
      (listDealsNormalize env).totalRecords = meta.totalRecords) ∧
    (∀ (env : EmailsEnvelope) (meta : RecordsMeta), env.records = some meta →
      (listEmailsNormalize env).cursor = meta.cursor ∧
      (listEmailsNormalize env).totalRecords = meta.totalRecords) := by
  refine ⟨?_, ?_, ?_, ?_⟩
  · intro env meta h; simp [listCallsNormalize, h]
  · intro env meta h; simp [listUsersNormalize, h]
  · intro env meta h; simp [listDealsNormalize, h]
  · intro env meta h; simp [listEmailsNormalize, h]

/-- Witness for C3 at concrete envelopes carrying a populated metadata
object. -/
theorem claim_C3_witness :
    listCallsNormalize callsEnvFull =
      .ok { records := callsEnvFull.calls, cursor := populatedMeta.cursor,
            totalRecords := populatedMeta.totalRecords } ∧
    listUsersNormalize usersEnvFull =
      .ok { records := usersEnvFull.users, cursor := populatedMeta.cursor,
            totalRecords := populatedMeta.totalRecords } ∧
    ((listDealsNormalize dealsEnvFull).cursor = populatedMeta.cursor ∧
      (listDealsNormalize dealsEnvFull).totalRecords =
        populatedMeta.totalRecords) ∧
    ((listEmailsNormalize emailsEnvFull).cursor = populatedMeta.cursor ∧
      (listEmailsNormalize emailsEnvFull).totalRecords =
        populatedMeta.totalRecords) :=
  ⟨claim_C3.1 callsEnvFull populatedMeta rfl,
   claim_C3.2.1 usersEnvFull populatedMeta rfl,
   claim_C3.2.2.1 dealsEnvFull populatedMeta rfl,
   claim_C3.2.2.2 emailsEnvFull populatedMeta rfl⟩

/-! ## C4 -/

/-- Claim C4: for every listing method, an optional filter parameter the
caller leaves unset appears neither among the GET query-string parameters
nor as a key of the serialized POST body's `filter` object or its sibling
`cursor` field. -/
theorem claim_C4 :
    (∀ p : ListCallsParams,
      (p.fromDateTime = none →
        "fromDateTime" ∉ (listCallsQuery p).map Prod.fst) ∧
      (p.toDateTime = none →
        "toDateTime" ∉ (listCallsQuery p).map Prod.fst) ∧
      (p.workspaceId = none →
        "workspaceId" ∉ (listCallsQuery p).map Prod.fst) ∧
      (p.cursor = none → "cursor" ∉ (listCallsQuery p).map Prod.fst)) ∧
    (∀ cursor : Option String, cursor = none →
      (listUsersQuery cursor).map Prod.fst = []) ∧
    (∀ p : DateCursorParams,
      (p.fromDateTime = none →
        "fromDateTime" ∉
          objKeys (getField "filter" (jsonSerialize (listDealsBody p)))) ∧
      (p.toDateTime = none →
        "toDateTime" ∉
          objKeys (getField "filter" (jsonSerialize (listDealsBody p)))) ∧
      (p.cursor = none →
        "cursor" ∉ objKeys (jsonSerialize (listDealsBody p)))) ∧
    (∀ p : DateCursorParams,
      (p.fromDateTime = none →
        "fromDateTime" ∉
          objKeys (getField "filter" (jsonSerialize (listEmailsBody p)))) ∧
      (p.toDateTime = none →
        "toDateTime" ∉
          objKeys (getField "filter" (jsonSerialize (listEmailsBody p)))) ∧
      (p.cursor = none →
        "cursor" ∉ objKeys (jsonSerialize (listEmailsBody p)))) := by
  refine ⟨?_, ?_, ?_, ?_⟩
  · intro p
    refine ⟨?_, ?_, ?_, ?_⟩ <;>
      · intro h hm
        rcases mem_keys_listCallsQuery p _ hm with
          ⟨hk, ht⟩ | ⟨hk, ht⟩ | ⟨hk, ht⟩ | ⟨hk, ht⟩ <;>
          first
            | (rw [h] at ht; exact absurd ht (by decide))
            | exact absurd hk (by decide)
  · intro cursor h
    rw [h]
    rfl
  · intro p
    refine ⟨?_, ?_, ?_⟩
    · intro h
      rcases htd : p.toDateTime with _ | td <;>
        simp [listDealsBody, jsOfOptStr, h, htd, jsonSerialize,
          serializeFields, JsVal.isUndefined, objKeys, getField]
    · intro h
      rcases hfd : p.fromDateTime with _ | fd <;>
        simp [listDealsBody, jsOfOptStr, h, hfd, jsonSerialize,
          serializeFields, JsVal.isUndefined, objKeys, getField]
    · intro h
      rcases hfd : p.fromDateTime with _ | fd <;>
        rcases htd : p.toDateTime with _ | td <;>
          simp [listDealsBody, jsOfOptStr, h, hfd, htd, jsonSerialize,
            serializeFields, JsVal.isUndefined, objKeys, getField]
  · intro p
    refine ⟨?_, ?_, ?_⟩
    · intro h
      rcases htd : p.toDateTime with _ | td <;>
        simp [listEmailsBody, jsOfOptStr, h, htd, jsonSerialize,
          serializeFields, JsVal.isUndefined, objKeys, getField]
    · intro h
      rcases hfd : p.fromDateTime with _ | fd <;>
        simp [listEmailsBody, jsOfOptStr, h, hfd, jsonSerialize,
          serializeFields, JsVal.isUndefined, objKeys, getField]
    · intro h
      rcases hfd : p.fromDateTime with _ | fd <;>
        rcases htd : p.toDateTime with _ | td <;>
          simp [listEmailsBody, jsOfOptStr, h, hfd, htd, jsonSerialize,
            serializeFields, JsVal.isUndefined, objKeys, getField]

/-- Witness for C4: with every optional parameter unset, no filter name
reaches the query parameters or the serialized bodies. -/
theorem claim_C4_witness :
    ("fromDateTime" ∉ (listCallsQuery defaultCallsParams).map Prod.fst) ∧
    ("toDateTime" ∉ (listCallsQuery defaultCallsParams).map Prod.fst) ∧
    ("workspaceId" ∉ (listCallsQuery defaultCallsParams).map Prod.fst) ∧
    ("cursor" ∉ (listCallsQuery defaultCallsParams).map Prod.fst) ∧
    (listUsersQuery none).map Prod.fst = [] ∧
    ("fromDateTime" ∉ objKeys (getField "filter"
      (jsonSerialize (listDealsBody defaultDateCursorParams)))) ∧
    ("toDateTime" ∉ objKeys (getField "filter"
      (jsonSerialize (listDealsBody defaultDateCursorParams)))) ∧
    ("cursor" ∉ objKeys (jsonSerialize
      (listDealsBody defaultDateCursorParams))) ∧
    ("fromDateTime" ∉ objKeys (getField "filter"
      (jsonSerialize (listEmailsBody defaultDateCursorParams)))) ∧
    ("toDateTime" ∉ objKeys (getField "filter"
      (jsonSerialize (listEmailsBody defaultDateCursorParams)))) ∧
    ("cursor" ∉ objKeys (jsonSerialize
      (listEmailsBody defaultDateCursorParams))) :=
  ⟨(claim_C4.1 defaultCallsParams).1 rfl,
   (claim_C4.1 defaultCallsParams).2.1 rfl,
   (claim_C4.1 defaultCallsParams).2.2.1 rfl,
   (claim_C4.1 defaultCallsParams).2.2.2 rfl,
   claim_C4.2.1 none rfl,
   (claim_C4.2.2.1 defaultDateCursorParams).1 rfl,
   (claim_C4.2.2.1 defaultDateCursorParams).2.1 rfl,
   (claim_C4.2.2.1 defaultDateCursorParams).2.2 rfl,
   (claim_C4.2.2.2 defaultDateCursorParams).1 rfl,
   (claim_C4.2.2.2 defaultDateCursorParams).2.1 rfl,
   (claim_C4.2.2.2 defaultDateCursorParams).2.2 rfl⟩

/-! ## C5 -/

/-- Claim C5: `searchCalls` issues exactly the outbound request of
`listCalls` restricted to its `fromDateTime`, `toDateTime` and `cursor`
fields; `searchTerm` and `primaryUserIds` never influence the request, and
the two methods normalize equal upstream responses to equal results. -/
theorem claim_C5 :
    ∀ p : SearchCallsParams,
      searchCallsRequest p =
        listCallsRequest
          { fromDateTime := p.fromDateTime, toDateTime := p.toDateTime,
            workspaceId := none, cursor := p.cursor } ∧
      (∀ (st : Option String) (pu : Option (List String)),
        searchCallsRequest { p with searchTerm := st, primaryUserIds := pu } =
          searchCallsRequest p) ∧
      (∀ env : CallsEnvelope, searchCallsNormalize env = listCallsNormalize env) :=
  fun _ => ⟨rfl, fun _ _ => rfl, fun _ => rfl⟩

/-! ## C6 -/

/-- Claim C6: `getTranscript` wraps exactly its one call identifier in a
one-element `callIds` filter array, and an upstream response with an empty
`callTranscripts` array normalizes to an absent result, not a failure. -/
theorem claim_C6 :
    ∀ (callId : String) (env : TranscriptEnvelope),
      getTranscriptRequest callId =
        { endpoint := "/calls/transcript", method := "POST",
          body :=
            some (.obj [("filter", .obj [("callIds", .arr [.str callId])])]) } ∧
      (env.callTranscripts = [] → getTranscriptNormalize env = none) :=
  fun callId env =>
    ⟨rfl, fun h => by simp [getTranscriptNormalize, h]⟩

/-- Witness for C6 at the concrete input of the spec's example:
`getTranscript("call-1")` against `callTranscripts: []`. -/
theorem claim_C6_witness :
    getTranscriptRequest "call-1" =
      { endpoint := "/calls/transcript", method := "POST",
        body :=
          some (.obj [("filter", .obj [("callIds", .arr [.str "call-1"])])]) } ∧
    getTranscriptNormalize { requestId := "r", callTranscripts := [] } = none :=
  ⟨(claim_C6 "call-1" { requestId := "r", callTranscripts := [] }).1,
   (claim_C6 "call-1" { requestId := "r", callTranscripts := [] }).2 rfl⟩

/-! ## C7 -/

/-- Claim C7: a non-2xx transport response makes `request` fail with a
message carrying the numeric status code and the raw body text verbatim,
and exactly one response is consumed from the transport — no retry. -/
theorem claim_C7 :
    ∀ (r : HttpResponse) (rest : List HttpResponse),
      responseOk r.status = false →
      (request (r :: rest)).1 = .error (gongErrorMessage r.status r.bodyText) ∧
      (∃ pre post,
        gongErrorMessage r.status r.bodyText =
          pre ++ toString r.status ++ post) ∧
      (∃ pre, gongErrorMessage r.status r.bodyText = pre ++ r.bodyText) ∧
      (request (r :: rest)).2 = rest := by
  intro r rest h
  refine ⟨?_, ⟨"Gong API error (", "): " ++ r.bodyText, ?_⟩,
    ⟨"Gong API error (" ++ toString r.status ++ "): ", rfl⟩, rfl⟩
  · simp [request, h]
  · simp [gongErrorMessage, String.append_assoc]

/-- Witness for C7 at the spec's example: status 429 with body
`"rate limited"`. -/
theorem claim_C7_witness :
    (request [({ status := 429, bodyText := "rate limited" } : HttpResponse)]
      ).1 = .error (gongErrorMessage 429 "rate limited") ∧
    (∃ pre post,
      gongErrorMessage 429 "rate limited" = pre ++ toString 429 ++ post) ∧
    (∃ pre, gongErrorMessage 429 "rate limited" = pre ++ "rate limited") ∧
    (request [({ status := 429, bodyText := "rate limited" } : HttpResponse)]
      ).2 = [] :=
  claim_C7 { status := 429, bodyText := "rate limited" } [] (by decide)

/-! ## C8 -/

/-- Claim C8: constructing a client with access key `"k"` and secret `"s"`
yields the authorization header `"Basic " ++ base64("k:s")` (concretely
`"Basic azpz"`); the credential is a pure function of the configuration,
fixed at construction, and every exchange carries exactly that header. -/
theorem claim_C8 :
    (GongClient.create { accessKey := "k", accessKeySecret := "s" }
      ).authHeader = "Basic " ++ base64Encode (utf8Bytes ("k" ++ ":" ++ "s")) ∧
    (GongClient.create { accessKey := "k", accessKeySecret := "s" }
      ).authHeader = "Basic azpz" ∧
    (∀ cfg : GongConfig,
      (GongClient.create cfg).authHeader =
        "Basic " ++
          base64Encode
            (utf8Bytes (cfg.accessKey ++ ":" ++ cfg.accessKeySecret))) ∧
    (∀ (c : GongClient) (req : GongRequest) (t : List HttpResponse),
      (clientRequest c req t).sent.headers =
        [("Authorization", c.authHeader),
         ("Content-Type", "application/json")]) ∧
    (∀ (c : GongClient) (req₁ req₂ : GongRequest)
        (t₁ t₂ : List HttpResponse),
      (clientRequest c req₁ t₁).sent.headers =
        (clientRequest c req₂ t₂).sent.headers) :=
  ⟨rfl, by decide, fun _ => rfl, fun _ _ _ => rfl, fun _ _ _ _ _ => rfl⟩

/-! ## C9 -/

/-- Claim C9: the client's whole state is the `authHeader` string fixed at
construction — every exchange leaves the client unchanged, a client is
nothing but its `authHeader` field, and construction only sets that
field. -/
theorem claim_C9 :
    (∀ (c : GongClient) (req : GongRequest) (t : List HttpResponse),
      (clientRequest c req t).clientAfter = c) ∧
    (∀ c : GongClient, c = { authHeader := c.authHeader }) ∧
    (∀ cfg : GongConfig,
      GongClient.create cfg =
        { authHeader :=
            "Basic " ++
              base64Encode
                (utf8Bytes (cfg.accessKey ++ ":" ++ cfg.accessKeySecret)) }) :=
  ⟨fun _ _ _ => rfl, fun _ => rfl, fun _ => rfl⟩

/-! ## C10 -/

/-- Claim C10: the non-paginated unwrap methods (`getCallsByCrmObject`,
`getCallsExtensive`, `getUsers`, `getUserStats`, `listLibraryFolders`)
return the upstream array field directly with no empty-sequence default —
an omitted field yields an absent result — in contrast with `listDeals` and
`listEmails`, which default an omitted array to the empty sequence. -/
theorem claim_C10 :
    (∀ env : CrmCallsEnvelope,
      getCallsByCrmObjectNormalize env = env.crmCallsLinks) ∧
    (∀ env : ExtensiveCallsEnvelope, getCallsExtensiveNormalize env = env.calls) ∧
    (∀ env : UsersExtensiveEnvelope, getUsersNormalize env = env.users) ∧
    (∀ env : UserStatsEnvelope, getUserStatsNormalize env = env.usersStats) ∧
    (∀ env : LibraryFoldersEnvelope,
      listLibraryFoldersNormalize env = env.libraryFolders) ∧
    getCallsByCrmObjectNormalize { requestId := "r", crmCallsLinks := none } =
      none ∧
    getCallsExtensiveNormalize
      { requestId := "r", records := none, calls := none } = none ∧
    getUsersNormalize { requestId := "r", users := none } = none ∧
    getUserStatsNormalize { requestId := "r", usersStats := none } = none ∧
    listLibraryFoldersNormalize { requestId := "r", libraryFolders := none } =
      none ∧
    (listDealsNormalize dealsEnvBare).records = some [] ∧
    (listEmailsNormalize emailsEnvBare).records = some [] :=
  ⟨fun _ => rfl, fun _ => rfl, fun _ => rfl, fun _ => rfl, fun _ => rfl,
   rfl, rfl, rfl, rfl, rfl, rfl, rfl⟩
